import Mathlib

/-!
Verification of the HSBC_RealEstate_ML repository: a shallow embedding of the
feature-engineering pipeline and the HTTP serving layer, over exact rational
arithmetic (Python floats are modelled as rationals; all claims here concern
structural behaviour, not floating-point rounding error).

The repository contains three near-copies of the serving/training code:
  * `src/backend-python/app/main.py`   (namespace `BackendMain`)
  * `src/backend-python/app/hpml_train.py` (namespace `HpmlTrain`)
  * `src/app/main.py`                  (namespace `SrcAppMain`)
  * `src/app/api.py`                   (namespace `SrcAppApi`)
A pandas DataFrame is modelled as a `Frame`: an ordered list of column names
plus a list of rows, each row an association list from column name to value.
The fitted sklearn pipeline is opaque in the source, so it is modelled as an
arbitrary function `Frame → List ℚ` (one prediction per row).
-/

/-- A DataFrame row: association list from column name to (rational) value. -/
abbrev Row := List (String × ℚ)

/-- `row[c]`: value of column `c` in a row (0 if absent; reads are guarded by
column-presence checks in the code being modelled). -/
def Row.get (row : Row) (c : String) : ℚ :=
  ((row.find? (fun p => p.1 == c)).map Prod.snd).getD 0

/-- `row[c] = v`: overwrite the entry for `c` if present, else append it
(pandas appends new columns at the end). -/
def Row.set (row : Row) (c : String) (v : ℚ) : Row :=
  if row.any (fun p => p.1 == c) then
    row.map (fun p => if p.1 == c then (c, v) else p)
  else row ++ [(c, v)]

/-- A pandas DataFrame: ordered column names plus rows. -/
structure Frame where
  cols : List String
  rows : List Row
deriving DecidableEq, Repr

/-- `c in df.columns`. -/
def Frame.hasCol (f : Frame) (c : String) : Bool := f.cols.contains c

/-- `df[c] = <expression of each row>`: add (or overwrite) a column computed
row-wise from the existing columns. -/
def Frame.addCol (f : Frame) (c : String) (g : Row → ℚ) : Frame :=
  { cols := if f.cols.contains c then f.cols else f.cols ++ [c],
    rows := f.rows.map (fun r => r.set c (g r)) }

/-- `df[c]` as a list of values, one per row. -/
def Frame.colValues (f : Frame) (c : String) : List ℚ :=
  f.rows.map (fun r => r.get c)

/-- `df[cs]`: select and reorder columns; rows are rebuilt in that order. -/
def Frame.select (f : Frame) (cs : List String) : Frame :=
  { cols := cs, rows := f.rows.map (fun r => cs.map (fun c => (c, r.get c))) }

/-- `df[c] = <list of values>`: add (or overwrite) a column from a list of
per-row values. -/
def Frame.withColVals (f : Frame) (c : String) (vs : List ℚ) : Frame :=
  { cols := if f.cols.contains c then f.cols else f.cols ++ [c],
    rows := f.rows.zipWith (fun r v => r.set c v) vs }

/-- `df.insert(0, "id", range(1, len(df) + 1))`: prepend a synthetic row
identifier column. -/
def Frame.insertIdCol (f : Frame) : Frame :=
  { cols := "id" :: f.cols,
    rows := f.rows.zipWith (fun r v => ("id", v) :: r)
      ((List.range f.rows.length).map (fun n => ((n + 1 : ℕ) : ℚ))) }

/-- Insertion step for an ascending sort of rationals. -/
def insertAsc (x : ℚ) : List ℚ → List ℚ
  | [] => [x]
  | y :: ys => if x ≤ y then x :: y :: ys else y :: insertAsc x ys

/-- Ascending insertion sort (used to model `Series.median`). -/
def sortAsc : List ℚ → List ℚ
  | [] => []
  | x :: xs => insertAsc x (sortAsc xs)

/-- `Series.median()` as numpy computes it: middle element of the sorted
values for odd length, mean of the two middle elements for even length
(0 as a junk value on the empty list, which the code never reaches). -/
def median (l : List ℚ) : ℚ :=
  let s := sortAsc l
  let n := l.length
  if n = 0 then 0
  else if n % 2 = 1 then s.getD (n / 2) 0
  else (s.getD (n / 2 - 1) 0 + s.getD (n / 2) 0) / 2

/-- Round half to even, the behaviour of both `np.round` and Python `round`. -/
def round_half_even (q : ℚ) : ℤ :=
  let f := ⌊q⌋
  let frac := q - f
  if frac < 1/2 then f
  else if 1/2 < frac then f + 1
  else if f % 2 = 0 then f else f + 1

/-- `np.round` (banker's rounding). -/
def np_round (q : ℚ) : ℤ := round_half_even q

/-- Python `round` (banker's rounding). -/
def py_round (q : ℚ) : ℤ := round_half_even q

/-- Python `int()` / numpy `astype(int)` on a float: truncation toward zero. -/
def py_int (q : ℚ) : ℤ := if 0 ≤ q then ⌊q⌋ else -⌊-q⌋

/-- Python `round(x, k)`. -/
def py_round_to (k : ℕ) (q : ℚ) : ℚ := (py_round (q * 10 ^ k) : ℚ) / 10 ^ k

/-- ASCII lower-casing of a character code (`str.lower` on filenames). -/
def lowerNat (c : Char) : ℕ :=
  if 65 ≤ c.toNat ∧ c.toNat ≤ 90 then c.toNat + 32 else c.toNat

/-- `filename.lower().endswith(".csv")`, computed structurally over the
character codes of the name. -/
def lower_endswith_csv (filename : String) : Bool :=
  ((filename.data.map lowerNat).reverse.take 4) == [118, 115, 99, 46]

/-- Insertion step for a stable descending sort by a rational key (Python
`sorted(..., key=..., reverse=True)`). -/
def insertDescBy {α : Type} (key : α → ℚ) (x : α) : List α → List α
  | [] => [x]
  | y :: ys => if key y ≤ key x then x :: y :: ys else y :: insertDescBy key x ys

/-- Stable descending sort by a rational key. -/
def sortDescBy {α : Type} (key : α → ℚ) : List α → List α
  | [] => []
  | x :: xs => insertDescBy key x (sortDescBy key xs)

-- Column-name constants (the string keys used by the DataFrames).
def cSqft : String := "square_footage"
def cBed : String := "bedrooms"
def cBath : String := "bathrooms"
def cYear : String := "year_built"
def cLot : String := "lot_size"
def cDist : String := "distance_to_city_center"
def cSchool : String := "school_rating"
def cAge : String := "age_of_house"
def cSizePerBed : String := "size_per_bedroom"
def cBathBedRt : String := "bathroom_bedroom_ratio"
def cTotalRooms : String := "total_rooms"
def cQuality : String := "quality_score"
def cSqftSq : String := "square_footage_sq"
def cLotSq : String := "lot_size_sq"
def cIsNew : String := "is_new_house"
def cLarge : String := "large_house"
def cMedianKey : String := "training_median_square_footage"

/-- A raw input record, the seven fields of the `HouseFeatures` request model. -/
structure RawRecord where
  square_footage : ℚ
  bedrooms : ℤ
  bathrooms : ℚ
  year_built : ℤ
  lot_size : ℚ
  distance_to_city_center : ℚ
  school_rating : ℚ
deriving DecidableEq, Repr

/-- `house.dict()` as a DataFrame row, in field-declaration order. -/
def RawRecord.toRow (h : RawRecord) : Row :=
  [(cSqft, h.square_footage), (cBed, (h.bedrooms : ℚ)), (cBath, h.bathrooms),
   (cYear, (h.year_built : ℚ)), (cLot, h.lot_size),
   (cDist, h.distance_to_city_center), (cSchool, h.school_rating)]

/-- The seven raw column names in `HouseFeatures` declaration order. -/
def rawCols : List String := [cSqft, cBed, cBath, cYear, cLot, cDist, cSchool]

/-- `pd.DataFrame([h.dict() for h in houses])`: the empty list yields a frame
with no columns at all. -/
def rawFrame (houses : List RawRecord) : Frame :=
  { cols := if houses.isEmpty then [] else rawCols,
    rows := houses.map RawRecord.toRow }

/-- The `model_meta.json` contents as the serving code reads them (fields the
endpoints access; `present` models Python truthiness of the dict). -/
structure ModelMeta where
  present : Bool
  n_samples : ℤ
  train_samples : Option ℤ
  test_samples : Option ℤ
  train_mae : ℚ
  train_r2 : ℚ
  test_mae : Option ℚ
  test_r2 : Option ℚ
  coefficients : List (String × ℚ)
  intercept : Option ℚ
  training_median_square_footage : Option ℚ

/-- Status code plus detail of an HTTP error response (uncaught exceptions are
surfaced by the framework as status 500). -/
structure HTTPException where
  status_code : ℕ
  detail : String
deriving DecidableEq, Repr

/-- The status code of an error result, if any. -/
def statusOf {α : Type} : Except HTTPException α → Option ℕ
  | .error e => some e.status_code
  | .ok _ => none

/-- The success value of a result, if any. -/
def okOf {α : Type} : Except HTTPException α → Option α
  | .error _ => none
  | .ok a => some a

namespace BackendMain

/-- `CURRENT_YEAR = 2025` in `src/backend-python/app/main.py` (a hardcoded
constant on the serving path). -/
def CURRENT_YEAR : ℤ := 2025

/-- The derivation steps 1-4 of `preprocess_features` in
`src/backend-python/app/main.py` (lines 98-130): each engineered column is
added only when its raw inputs are present; `quality_score` is
`school_rating * (1 / (distance_to_city_center + 0.1))`; `large_house`
compares against `model_meta.get("training_median_square_footage",
df["square_footage"].median())`, i.e. falls back to the median of the
current batch when the metadata key is absent. -/
def derive_features (model_meta : ModelMeta) (df : Frame) : Frame :=
  let d := df
  let d := if d.hasCol cYear then
      d.addCol cAge (fun r => (CURRENT_YEAR : ℚ) - r.get cYear) else d
  let d := if d.hasCol cSqft && d.hasCol cBed then
      d.addCol cSizePerBed (fun r => r.get cSqft / (r.get cBed + 1)) else d
  let d := if d.hasCol cBath && d.hasCol cBed then
      d.addCol cBathBedRt (fun r => r.get cBath / (r.get cBed + 1)) else d
  let d := if d.hasCol cBed && d.hasCol cBath then
      d.addCol cTotalRooms (fun r => r.get cBed + r.get cBath) else d
  let d := if d.hasCol cSchool && d.hasCol cDist then
      d.addCol cQuality (fun r => r.get cSchool * (1 / (r.get cDist + 1/10))) else d
  let d := if d.hasCol cSqft then
      d.addCol cSqftSq (fun r => r.get cSqft ^ 2) else d
  let d := if d.hasCol cLot then
      d.addCol cLotSq (fun r => r.get cLot ^ 2) else d
  let d := if d.hasCol cAge then
      d.addCol cIsNew (fun r => if r.get cAge ≤ 5 then 1 else 0) else d
  let d := if d.hasCol cSqft then
      let median_size :=
        model_meta.training_median_square_footage.getD (median (d.colValues cSqft))
      d.addCol cLarge (fun r => if median_size < r.get cSqft then 1 else 0)
    else d
  d

/-- `preprocess_features` of `src/backend-python/app/main.py`: derive the
engineered columns, then either raise naming the features that could not be
engineered, or select/reorder to exactly `original_features`. -/
def preprocess_features (model_meta : ModelMeta) (original_features : List String)
    (df : Frame) : Except (List String) Frame :=
  let d := derive_features model_meta df
  let missing := original_features.filter (fun c => ¬ d.hasCol c)
  if missing.isEmpty then .ok (d.select original_features) else .error missing

/-- The persisted model bundle `{pipeline, features_used, target}`; the fitted
pipeline is opaque and is modelled as an arbitrary row-wise predictor. -/
structure LoadedBundle where
  pipeline : Frame → List ℚ
  features_used : List String
  target : String

/-- The module-level globals of `src/backend-python/app/main.py`
(lines 44-48). -/
structure ServerState where
  model_pipeline : Option (Frame → List ℚ)
  model_meta : ModelMeta
  original_features : List String
  target : String

/-- The globals as initialised before the startup hook runs. -/
def initState : ServerState :=
  { model_pipeline := none,
    model_meta := ⟨false, 0, none, none, 0, 0, none, none, [], none, none⟩,
    original_features := [],
    target := "price" }

/-- `load_model` of `src/backend-python/app/main.py` (lines 50-70): the file
reads are modelled as `Except` parameters. The whole body is wrapped in
`try/except`; on any failure the handler prints and sets
`model_pipeline = None`, and startup CONTINUES (the service starts serving).
A metadata failure happens after the bundle globals were already assigned. -/
def load_model (loadBundle : Except String LoadedBundle)
    (loadMeta : Except String ModelMeta) (s : ServerState) : ServerState :=
  match loadBundle with
  | .error _ => { s with model_pipeline := none }
  | .ok b =>
    match loadMeta with
    | .error _ =>
      { s with model_pipeline := none, original_features := b.features_used,
               target := b.target }
    | .ok m =>
      { model_pipeline := some b.pipeline, model_meta := m,
        original_features := b.features_used, target := b.target }

/-- `GET /health` (lines 141-143): status plus the true load state of the
pipeline global. -/
def health_check (s : ServerState) : ServerState × (String × String) :=
  (s, ("healthy", if s.model_pipeline.isSome then "loaded" else "not loaded"))

/-- One entry of the `top_features` list of the model-info response. -/
structure TopFeature where
  feature : String
  impact : ℤ
deriving DecidableEq, Repr

/-- The JSON body returned by `GET /model-info`. -/
structure ModelInfoResponse where
  target : String
  features_used : List String
  n_samples : ℤ
  train_samples : Option ℤ
  test_samples : Option ℤ
  train_mae : ℤ
  test_mae : ℤ
  train_r2 : ℚ
  test_r2 : ℚ
  coefficients : List (String × ℚ)
  top_features : List TopFeature

/-- `GET /model-info` (lines 146-169): 503 when the metadata dict is empty,
otherwise a read-only projection of the metadata with rounded metrics and the
top five coefficients by absolute value. -/
def model_info (s : ServerState) : ServerState × Except HTTPException ModelInfoResponse :=
  if ¬ s.model_meta.present then (s, .error ⟨503, "Model metadata not loaded"⟩)
  else
    (s, .ok {
      target := s.target,
      features_used := s.original_features,
      n_samples := s.model_meta.n_samples,
      train_samples := s.model_meta.train_samples,
      test_samples := s.model_meta.test_samples,
      train_mae := py_round s.model_meta.train_mae,
      test_mae := py_round (s.model_meta.test_mae.getD (-1)),
      train_r2 := py_round_to 4 s.model_meta.train_r2,
      test_r2 := py_round_to 4 (s.model_meta.test_r2.getD (-1)),
      coefficients := s.model_meta.coefficients.map (fun p => (p.1, py_round_to 2 p.2)),
      top_features := ((sortDescBy (fun p => |p.2|) s.model_meta.coefficients).take 5).map
        (fun p => { feature := p.1.replace "num__" "", impact := py_round p.2 }) })

/-- `POST /predict` (lines 172-185): 503 when unloaded; otherwise build a
one-row DataFrame, preprocess, predict, and return `int(np.round(pred))`.
An exception escaping the handler (preprocessing failure, or indexing an
empty prediction vector) is surfaced by the framework as a 500, not a 4xx. -/
def predict_single (s : ServerState) (house : RawRecord) :
    ServerState × Except HTTPException ℤ :=
  match s.model_pipeline with
  | none => (s, .error ⟨503, "Model not loaded"⟩)
  | some pl =>
    match preprocess_features s.model_meta s.original_features (rawFrame [house]) with
    | .error _ => (s, .error ⟨500, "Internal Server Error"⟩)
    | .ok X =>
      match pl X with
      | [] => (s, .error ⟨500, "Internal Server Error"⟩)
      | p :: _ => (s, .ok (np_round p))

/-- `POST /predict-batch` (lines 188-202): same pipeline applied to a
DataFrame of all records of the request; no emptiness check, so an empty list
reaches `preprocess_features` as a DataFrame with no columns at all and the
resulting RuntimeError is surfaced as a 500. -/
def predict_batch (s : ServerState) (houses : List RawRecord) :
    ServerState × Except HTTPException (List ℤ) :=
  match s.model_pipeline with
  | none => (s, .error ⟨503, "Model not loaded"⟩)
  | some pl =>
    match preprocess_features s.model_meta s.original_features (rawFrame houses) with
    | .error _ => (s, .error ⟨500, "Internal Server Error"⟩)
    | .ok X => (s, .ok ((pl X).map np_round))

/-- `POST /predict-csv` (lines 205-251): the parsed upload is a `Frame`.
Everything after the filename check runs inside `try/except Exception` whose
handler re-raises as HTTP 500 - including the empty-file ValueError. On
success the ORIGINAL columns are kept, an `id` column is prepended when
absent, and `predicted_price` is appended as `predictions.astype(int)`. -/
def predict_csv (s : ServerState) (filename : String) (df : Frame) :
    ServerState × Except HTTPException Frame :=
  match s.model_pipeline with
  | none => (s, .error ⟨503, "Model not loaded"⟩)
  | some pl =>
    if ¬ lower_endswith_csv filename then
      (s, .error ⟨400, "Only CSV files are supported"⟩)
    else if df.rows.isEmpty || df.cols.isEmpty then
      (s, .error ⟨500, "Prediction failed: Uploaded CSV is empty"⟩)
    else
      match preprocess_features s.model_meta s.original_features df with
      | .error _ => (s, .error ⟨500, "Prediction failed: missing engineered features"⟩)
      | .ok X =>
        let predictions := pl X
        let result_df := if df.hasCol "id" then df else df.insertIdCol
        (s, .ok (result_df.withColVals "predicted_price"
          (predictions.map (fun p => ((py_int p : ℤ) : ℚ)))))

end BackendMain

namespace HpmlTrain

/-- The seven-name allow-list of `src/backend-python/app/hpml_train.py`
(a Python set; membership only, iteration order unspecified). -/
def ALLOWED_FEATURES : List String := rawCols

/-- `ALLOWED_FEATURES_TRAIN` (lines 101-106): allow-list with `year_built`
replaced by `age_of_house` plus the eight engineered features. The Python
value is a set, so this list fixes one iteration order; no theorem below
depends on its order. -/
def ALLOWED_FEATURES_TRAIN : List String :=
  [cSqft, cBed, cBath, cLot, cDist, cSchool, cAge, cSizePerBed, cBathBedRt,
   cTotalRooms, cQuality, cSqftSq, cLotSq, cIsNew, cLarge]

/-- The feature-engineering block of `hpml_train` in
`src/backend-python/app/hpml_train.py` (lines 64-96). `CURRENT_YEAR` there is
`datetime.datetime.now().year`, so the reference year is a parameter taken
from the system clock. `age_of_house` is computed unconditionally (a missing
`year_built` column raises a KeyError); `quality_score` is the direct product
`school_rating * distance_to_city_center`; `large_house` always uses the
median of the training batch itself. -/
def engineer_features (now_year : ℤ) (df : Frame) : Except String Frame :=
  if ¬ df.hasCol cYear then .error "KeyError: year_built"
  else
    let d := df.addCol cAge (fun r => (now_year : ℚ) - r.get cYear)
    let d := if d.hasCol cSqft && d.hasCol cBed then
        d.addCol cSizePerBed (fun r => r.get cSqft / (r.get cBed + 1)) else d
    let d := if d.hasCol cBath && d.hasCol cBed then
        d.addCol cBathBedRt (fun r => r.get cBath / (r.get cBed + 1)) else d
    let d := if d.hasCol cBed && d.hasCol cBath then
        d.addCol cTotalRooms (fun r => r.get cBed + r.get cBath) else d
    let d := if d.hasCol cSchool && d.hasCol cDist then
        d.addCol cQuality (fun r => r.get cSchool * r.get cDist) else d
    let d := if d.hasCol cSqft then
        d.addCol cSqftSq (fun r => r.get cSqft ^ 2) else d
    let d := if d.hasCol cLot then
        d.addCol cLotSq (fun r => r.get cLot ^ 2) else d
    let d := if d.hasCol cAge then
        d.addCol cIsNew (fun r => if r.get cAge ≤ 5 then 1 else 0) else d
    let d := if d.hasCol cSqft then
        let median_size := median (d.colValues cSqft)
        d.addCol cLarge (fun r => if median_size < r.get cSqft then 1 else 0)
      else d
    .ok d

/-- The top-level keys of the metadata JSON that `hpml_train` persists
(lines 163-188). Notably there is NO `training_median_square_footage` key,
although the serving path's `preprocess_features` looks one up. -/
def meta_keys : List String :=
  ["target", "n_samples", "train_samples", "test_samples", "features_used",
   "train_mean_price", "baseline_naive_mae", "metrics_on_training_set",
   "metrics_on_test_set", "improvement_over_baseline_pct", "model",
   "coefficients", "top_5_important_features"]

end HpmlTrain

namespace SrcAppMain

/-- The module-level globals of `src/app/main.py` (lines 32-35); this copy has
no `target` global. -/
structure ServerState where
  model_pipeline : Option (Frame → List ℚ)
  model_meta : ModelMeta
  original_features : List String

/-- The bundle as `src/app/main.py` reads it with `.get`: any of the three
keys may be absent. `fallback` stands for the loaded object itself, which
`bundle.get("pipeline") or bundle` substitutes when the `pipeline` key is
missing (the object is a non-empty dict, hence truthy). -/
structure SrcBundle where
  pipeline : Option (Frame → List ℚ)
  features_used : Option (List String)
  features : Option (List String)
  fallback : Frame → List ℚ

/-- `load_model` of `src/app/main.py` (lines 38-62): raises (refusing
startup) when the model file is missing, and lets any `joblib.load` or
metadata-read exception propagate - there is no `try/except` here. A missing
metadata file falls back to a default dict instead. -/
def load_model (modelFileExists : Bool) (loadBundle : Except String SrcBundle)
    (metaFileExists : Bool) (loadMeta : Except String ModelMeta) :
    Except String ServerState := do
  if ¬ modelFileExists then
    .error "Model file not found"
  else
    let b ← loadBundle
    let pl := b.pipeline.getD b.fallback
    let feats := b.features_used.getD (b.features.getD [])
    if metaFileExists then
      let m ← loadMeta
      .ok { model_pipeline := some pl, model_meta := m, original_features := feats }
    else
      .ok { model_pipeline := some pl,
            model_meta := ⟨true, 0, none, none, 0, 0, none, none, [], none, none⟩,
            original_features := feats }

/-- `GET /health` of `src/app/main.py` (lines 79-82): a constant response
that does not inspect the load state at all. -/
def health_check (s : ServerState) : ServerState × (String × String) :=
  (s, ("healthy", "Model is loaded and ready"))

/-- The union-typed request body of `POST /predict`: either a single record
or a batch of records. -/
inductive Payload where
  | single (features : Row)
  | batch (items : List Row)

/-- `POST /predict` of `src/app/main.py` (lines 116-147). There is NO feature
engineering on this path: any bundle feature missing from the input is
silently set to the constant 0 before selecting `original_features`, and the
response is `float(round(p))` per prediction. `ks` is the column list of
`pd.DataFrame(records)` (the records of a request are assumed to share one
key set). Exceptions inside the handler become HTTP 400. -/
def predict (s : ServerState) (ks : List String) (payload : Payload) :
    ServerState × Except HTTPException (List ℚ) :=
  match s.model_pipeline with
  | none => (s, .error ⟨503, "Model not loaded"⟩)
  | some pl =>
    let records := match payload with
      | .single features => [features]
      | .batch items => items
    if records.isEmpty then
      (s, .error ⟨400, "Prediction failed: No prediction data provided"⟩)
    else
      let df : Frame := { cols := ks, rows := records }
      let df := s.original_features.foldl
        (fun d c => if d.hasCol c then d else d.addCol c (fun _ => 0)) df
      let df := df.select s.original_features
      (s, .ok ((pl df).map (fun p => ((py_round p : ℤ) : ℚ))))

/-- `POST /predict-csv` of `src/app/main.py` (lines 150-191): same
fill-with-0 alignment, exceptions (including the empty-file ValueError)
become HTTP 400; the returned CSV is built from the ALIGNED frame (this copy
reassigns `df` before `result_df = df.copy()`), with an `id` column always
inserted and `predicted_price` appended as `astype(int)`. -/
def predict_csv (s : ServerState) (filename : String) (df : Frame) :
    ServerState × Except HTTPException Frame :=
  match s.model_pipeline with
  | none => (s, .error ⟨503, "Model not loaded"⟩)
  | some pl =>
    if ¬ lower_endswith_csv filename then
      (s, .error ⟨400, "Only CSV files are supported"⟩)
    else if df.rows.isEmpty || df.cols.isEmpty then
      (s, .error ⟨400, "CSV processing failed: Uploaded CSV is empty"⟩)
    else
      let dfA := s.original_features.foldl
        (fun d c => if d.hasCol c then d else d.addCol c (fun _ => 0)) df
      let dfA := dfA.select s.original_features
      let predictions := pl dfA
      let result_df := dfA.insertIdCol
      (s, .ok (result_df.withColVals "predicted_price"
        (predictions.map (fun p => ((py_int p : ℤ) : ℚ)))))

end SrcAppMain

namespace SrcAppApi

/-- The import-time module initialisation of `src/app/api.py` (lines 10-18):
`joblib.load`, the three subscript accesses and the metadata read all
propagate exceptions, so the module only finishes loading with a pipeline in
hand. -/
structure ApiState where
  pipeline : Frame → List ℚ
  features_used : List String
  target : String
  meta : ModelMeta

/-- Import of `src/app/api.py`: any load failure aborts the module import. -/
def import_load (loadBundle : Except String BackendMain.LoadedBundle)
    (loadMeta : Except String ModelMeta) : Except String ApiState := do
  let b ← loadBundle
  let m ← loadMeta
  .ok { pipeline := b.pipeline, features_used := b.features_used,
        target := b.target, meta := m }

/-- `GET /health` of `src/app/api.py` (lines 41-43): constant response. -/
def health_check : String × String := ("healthy", "loaded")

/-- `POST /predict` of `src/app/api.py` (lines 62-66): NO feature
engineering and NO rounding to nearest - the raw prediction is truncated with
`int(pred)`. -/
def predict_single (pipeline : Frame → List ℚ) (house : RawRecord) :
    Except HTTPException ℤ :=
  match pipeline (rawFrame [house]) with
  | [] => .error ⟨500, "Internal Server Error"⟩
  | p :: _ => .ok (py_int p)

/-- `POST /predict-batch` of `src/app/api.py` (lines 69-75): explicit 400 on
an empty batch, then `int(p)` per raw prediction. -/
def predict_batch (pipeline : Frame → List ℚ) (houses : List RawRecord) :
    Except HTTPException (List ℤ) :=
  if houses.isEmpty then .error ⟨400, "Empty batch"⟩
  else .ok ((pipeline (rawFrame houses)).map py_int)

end SrcAppApi

namespace BackendMain

/-- The Pydantic validation of `HouseFeatures` in
`src/backend-python/app/main.py` (lines 73-80): `bedrooms`, `bathrooms`,
`year_built` and `school_rating` carry `ge`/`le` range constraints;
`square_footage`, `lot_size` and notably `distance_to_city_center` have no
constraints at all (`src/app/api.py` lines 23-30 declares the same model). -/
def HouseFeatures_valid (r : RawRecord) : Prop :=
  1 ≤ r.bedrooms ∧ r.bedrooms ≤ 10 ∧
  1 ≤ r.bathrooms ∧ r.bathrooms ≤ 10 ∧
  1900 ≤ r.year_built ∧ r.year_built ≤ CURRENT_YEAR ∧
  0 ≤ r.school_rating ∧ r.school_rating ≤ 10

instance : DecidablePred HouseFeatures_valid := fun r => by
  unfold HouseFeatures_valid; infer_instance

end BackendMain

/-- The documented example record: square_footage 1850, bedrooms 3,
bathrooms 2, year_built 2000, lot_size 7500, distance_to_city_center 5.5,
school_rating 8.2. -/
def exampleHouse : RawRecord := ⟨1850, 3, 2, 2000, 7500, 11/2, 41/5⟩

/-- A second valid record differing from `exampleHouse` only in its square
footage. -/
def smallHouse : RawRecord := ⟨1000, 3, 2, 2000, 7500, 11/2, 41/5⟩

/-- Metadata with the shape `hpml_train` persists: in particular it has NO
`training_median_square_footage` entry. -/
def trainedMeta : ModelMeta :=
  ⟨true, 100, some 80, some 20, 0, 0, some 0, some 0, [], none, none⟩


/-- C1 [code_bug]: the claim states that the training-path and serving-path
feature engineering agree on every raw record - same fixed reference year,
same single quality_score formula. The code violates its own stated intent
(the serving file's comments say the two must match): on the documented
example record, training (system year 2026) computes quality_score =
school_rating * distance = 45.1 and age_of_house = 26, while serving computes
quality_score = school_rating * (1/(distance+0.1)) = 41/28 and age_of_house
= 25. This theorem evaluates both paths at that record. -/
theorem C1_train_serve_feature_divergence :
    (HpmlTrain.engineer_features 2026 (rawFrame [exampleHouse])).toOption.map
        (fun d => (Row.get (d.rows.headD []) cQuality, Row.get (d.rows.headD []) cAge))
      = some (451/10, 26) ∧
    (Row.get ((BackendMain.derive_features trainedMeta (rawFrame [exampleHouse])).rows.headD []) cQuality,
        Row.get ((BackendMain.derive_features trainedMeta (rawFrame [exampleHouse])).rows.headD []) cAge)
      = (41/28, 25) ∧
    (451/10 : ℚ) ≠ 41/28 ∧ (26 : ℚ) ≠ 25 := by
  refine ⟨?_, ?_, by norm_num, by norm_num⟩
  · norm_num +decide [HpmlTrain.engineer_features, Frame.hasCol, Frame.addCol,
      Frame.colValues, Row.get, Row.set, rawFrame, RawRecord.toRow, rawCols, median,
      sortAsc, insertAsc, exampleHouse, cSqft, cBed, cBath, cYear, cLot, cDist,
      cSchool, cAge, cSizePerBed, cBathBedRt, cTotalRooms, cQuality, cSqftSq,
      cLotSq, cIsNew, cLarge, Except.toOption]
  · norm_num +decide [BackendMain.derive_features, Frame.hasCol, Frame.addCol,
      Frame.colValues, Row.get, Row.set, rawFrame, RawRecord.toRow, rawCols, median,
      sortAsc, insertAsc, exampleHouse, trainedMeta, cSqft, cBed, cBath, cYear,
      cLot, cDist, cSchool, cAge, cSizePerBed, cBathBedRt, cTotalRooms, cQuality,
      cSqftSq, cLotSq, cIsNew, cLarge, BackendMain.CURRENT_YEAR]

/-- C2 [code_bug]: the claim states large_house is 1 exactly when
square_footage exceeds the median persisted in training metadata, and does
not depend on the other records in the request batch. But `hpml_train` never
persists a `training_median_square_footage` key, so the serving fallback to
the CURRENT BATCH median is always taken: the same record (square footage
1850) gets large_house = 0 when sent alone and large_house = 1 when batched
with a 1000-square-foot record. -/
theorem C2_large_house_batch_dependent :
    cMedianKey ∉ HpmlTrain.meta_keys ∧
    trainedMeta.training_median_square_footage = none ∧
    (BackendMain.preprocess_features trainedMeta HpmlTrain.ALLOWED_FEATURES_TRAIN
        (rawFrame [exampleHouse])).toOption.map
      (fun X => Row.get (X.rows.headD []) cLarge) = some 0 ∧
    (BackendMain.preprocess_features trainedMeta HpmlTrain.ALLOWED_FEATURES_TRAIN
        (rawFrame [exampleHouse, smallHouse])).toOption.map
      (fun X => Row.get (X.rows.headD []) cLarge) = some 1 := by
  refine ⟨by decide, rfl, ?_, ?_⟩
  · norm_num +decide [BackendMain.preprocess_features, BackendMain.derive_features,
      Frame.hasCol, Frame.addCol, Frame.colValues, Frame.select, Row.get, Row.set,
      rawFrame, RawRecord.toRow, rawCols, median, sortAsc, insertAsc, exampleHouse,
      trainedMeta, HpmlTrain.ALLOWED_FEATURES_TRAIN, cSqft, cBed, cBath, cYear,
      cLot, cDist, cSchool, cAge, cSizePerBed, cBathBedRt, cTotalRooms, cQuality,
      cSqftSq, cLotSq, cIsNew, cLarge, BackendMain.CURRENT_YEAR, Except.toOption]
  · norm_num +decide [BackendMain.preprocess_features, BackendMain.derive_features,
      Frame.hasCol, Frame.addCol, Frame.colValues, Frame.select, Row.get, Row.set,
      rawFrame, RawRecord.toRow, rawCols, median, sortAsc, insertAsc, exampleHouse,
      smallHouse, trainedMeta, HpmlTrain.ALLOWED_FEATURES_TRAIN, cSqft, cBed, cBath,
      cYear, cLot, cDist, cSchool, cAge, cSizePerBed, cBathBedRt, cTotalRooms,
      cQuality, cSqftSq, cLotSq, cIsNew, cLarge, BackendMain.CURRENT_YEAR,
      Except.toOption]

/-- C3 counterexample: in `src/app/main.py`, `POST /predict` does NOT fail
when a bundle feature (here `age_of_house`) cannot be derived - there is no
feature engineering at all on that path, and the missing column is silently
filled with the constant 0. With a model that just reads back the
`age_of_house` column, a request whose record lacks it succeeds and the model
sees the fill value 0, contradicting the claim that missing columns are never
silently defaulted and always produce a schema error. -/
theorem C3_srcApp_predict_defaults_missing_to_zero :
    (SrcAppMain.predict
        { model_pipeline := some (fun df => df.rows.map (fun r => Row.get r cAge)),
          model_meta := trainedMeta,
          original_features := [cSqft, cAge] }
        [cSqft] (.single [(cSqft, 1850)])).2 = .ok [0] := by
  norm_num +decide [SrcAppMain.predict, Frame.hasCol, Frame.addCol, Frame.select,
    Row.get, Row.set, cSqft, cAge, py_round, round_half_even, List.foldl]

/-- C3 amended: in `src/backend-python/app/main.py`, `preprocess_features`
does satisfy the claim - if any bundle feature is still missing after
derivation it fails with an error naming exactly the missing columns, and on
success the output columns are exactly the bundle's feature list in order.
But in `src/app/main.py`, `POST /predict` instead silently fills every
missing bundle feature with 0 and never raises a schema error. -/
theorem C3_schema_error_vs_silent_default :
    (∀ meta feats df, (∃ c ∈ feats, ¬ (BackendMain.derive_features meta df).hasCol c) →
      BackendMain.preprocess_features meta feats df
          = .error (feats.filter (fun c => ¬ (BackendMain.derive_features meta df).hasCol c)) ∧
        feats.filter (fun c => ¬ (BackendMain.derive_features meta df).hasCol c) ≠ []) ∧
    (∀ meta feats df, (∀ c ∈ feats, (BackendMain.derive_features meta df).hasCol c) →
      (BackendMain.preprocess_features meta feats df).toOption.map Frame.cols = some feats) ∧
    (∀ s ks items pl, s.model_pipeline = some pl → items ≠ [] →
      ∃ vs, (SrcAppMain.predict s ks (.batch items)).2 = .ok vs) := by
  refine ⟨?_, ?_, ?_⟩
  · rintro meta feats df ⟨c, hc, hnc⟩
    have hne : feats.filter (fun c => ¬ (BackendMain.derive_features meta df).hasCol c) ≠ [] := by
      intro h
      have hm : c ∈ feats.filter (fun c => ¬ (BackendMain.derive_features meta df).hasCol c) := by
        simp only [List.mem_filter, decide_eq_true_eq]
        exact ⟨hc, hnc⟩
      rw [h] at hm
      exact (List.not_mem_nil c) hm
    refine ⟨?_, hne⟩
    simp only [BackendMain.preprocess_features]
    rw [if_neg (by simpa [List.isEmpty_iff] using hne)]
  · intro meta feats df h
    have hnil : feats.filter (fun c => ¬ (BackendMain.derive_features meta df).hasCol c) = [] := by
      rw [List.filter_eq_nil_iff]
      intro a ha
      simp only [decide_eq_true_eq, Decidable.not_not]
      exact h a ha
    simp only [BackendMain.preprocess_features]
    rw [if_pos (by rw [hnil]; rfl)]
    simp only [Except.toOption, Option.map, Frame.select]
  · intro s ks items pl hpl hne
    simp only [SrcAppMain.predict, hpl]
    rw [if_neg (by simpa [List.isEmpty_iff] using hne)]
    exact ⟨_, rfl⟩

/-- C3 witness: the amended theorem applied at concrete inputs - a frame with
only `square_footage` makes `preprocess_features` fail naming `age_of_house`;
the full raw example record makes it succeed with exactly the training
feature list as columns; a one-record batch makes `src/app`'s predict
succeed (never a schema error). -/
theorem C3_schema_error_vs_silent_default_witness :
    (BackendMain.preprocess_features trainedMeta [cSqft, cAge]
          (Frame.mk [cSqft] [[(cSqft, 1850)]])
        = .error (([cSqft, cAge]).filter (fun c => ¬ (BackendMain.derive_features trainedMeta
            (Frame.mk [cSqft] [[(cSqft, 1850)]])).hasCol c)) ∧
      ([cSqft, cAge]).filter (fun c => ¬ (BackendMain.derive_features trainedMeta
          (Frame.mk [cSqft] [[(cSqft, 1850)]])).hasCol c) ≠ []) ∧
    (BackendMain.preprocess_features trainedMeta HpmlTrain.ALLOWED_FEATURES_TRAIN
        (rawFrame [exampleHouse])).toOption.map Frame.cols
      = some HpmlTrain.ALLOWED_FEATURES_TRAIN ∧
    (∃ vs, (SrcAppMain.predict
        { model_pipeline := some (fun df => df.rows.map (fun _ => (0:ℚ))),
          model_meta := trainedMeta, original_features := [cSqft, cAge] }
        [cSqft] (.batch [[(cSqft, 1850)]])).2 = .ok vs) :=
  ⟨C3_schema_error_vs_silent_default.1 trainedMeta [cSqft, cAge]
      (Frame.mk [cSqft] [[(cSqft, 1850)]])
      ⟨cAge, by decide, by decide⟩,
   C3_schema_error_vs_silent_default.2.1 trainedMeta HpmlTrain.ALLOWED_FEATURES_TRAIN
      (rawFrame [exampleHouse]) (by decide),
   C3_schema_error_vs_silent_default.2.2
      { model_pipeline := some (fun df => df.rows.map (fun _ => (0:ℚ))),
        model_meta := trainedMeta, original_features := [cSqft, cAge] }
      [cSqft] [[(cSqft, 1850)]] _ rfl (by decide)⟩

/-- Helper: banker's rounding lands within 1/2 of the argument, i.e. it picks
a nearest integer. -/
theorem round_half_even_dist (q : ℚ) : |q - (round_half_even q : ℚ)| ≤ 1/2 := by
  have h1 : (⌊q⌋ : ℚ) ≤ q := Int.floor_le q
  have h2 : q < ⌊q⌋ + 1 := Int.lt_floor_add_one q
  simp only [round_half_even]
  split_ifs with ha hb hc <;> (rw [abs_le]; push_cast; constructor <;> linarith)

/-- C4 counterexample: `src/app/api.py`'s predict endpoint returns
`int(pred)`, truncation toward zero, not rounding to nearest: with a model
whose raw prediction is 2.7 it answers 2, while the nearest integer is 3 (as
`np.round` on the backend path computes). -/
theorem C4_api_truncates_not_rounds :
    SrcAppApi.predict_single (fun _ => [27/10]) exampleHouse = .ok 2 ∧
    np_round (27/10) = 3 := by
  constructor
  · norm_num [SrcAppApi.predict_single, py_int]
  · norm_num [np_round, round_half_even]

/-- C4 amended: only `src/backend-python/app/main.py` rounds raw predictions
to the nearest integer - its predict-single returns `int(np.round(pred))` and
its predict-batch returns `int(np.round(p))` per element (ties to even,
always within 1/2 of the raw value); `src/app/api.py`'s predict-single and
predict-batch instead truncate each raw prediction toward zero with
`int(...)`. -/
theorem C4_rounding_amended :
    (∀ q : ℚ, |q - (np_round q : ℚ)| ≤ 1/2) ∧
    (∀ s pl house p, s.model_pipeline = some pl →
      (BackendMain.preprocess_features s.model_meta s.original_features
          (rawFrame [house])).toOption.map (fun X => (pl X).head?) = some (some p) →
      (BackendMain.predict_single s house).2 = .ok (np_round p)) ∧
    (∀ s pl (houses : List RawRecord) ps, s.model_pipeline = some pl →
      (BackendMain.preprocess_features s.model_meta s.original_features
          (rawFrame houses)).toOption.map pl = some ps →
      (BackendMain.predict_batch s houses).2 = .ok (ps.map np_round)) ∧
    (∀ pl house p, (pl (rawFrame [house])).head? = some p →
      SrcAppApi.predict_single pl house = .ok (py_int p)) ∧
    (∀ pl (houses : List RawRecord), houses ≠ [] →
      SrcAppApi.predict_batch pl houses
        = .ok ((pl (rawFrame houses)).map py_int)) := by
  refine ⟨fun q => round_half_even_dist q, ?_, ?_, ?_, ?_⟩
  · intro s pl house p hpl hpp
    simp only [BackendMain.predict_single, hpl]
    cases hprep : BackendMain.preprocess_features s.model_meta s.original_features
        (rawFrame [house]) with
    | error e => rw [hprep] at hpp; simp [Except.toOption] at hpp
    | ok X =>
      rw [hprep] at hpp
      simp only [Except.toOption, Option.map] at hpp
      cases hX : pl X with
      | nil => rw [hX] at hpp; simp at hpp
      | cons q qs =>
        rw [hX] at hpp
        simp only [List.head?, Option.some.injEq] at hpp
        subst hpp
        simp [hX]
  · intro s pl houses ps hpl hpp
    simp only [BackendMain.predict_batch, hpl]
    cases hprep : BackendMain.preprocess_features s.model_meta s.original_features
        (rawFrame houses) with
    | error e => rw [hprep] at hpp; simp [Except.toOption] at hpp
    | ok X =>
      rw [hprep] at hpp
      simp only [Except.toOption, Option.map, Option.some.injEq] at hpp
      simp [hpp]
  · intro pl house p hp
    simp only [SrcAppApi.predict_single]
    cases hX : pl (rawFrame [house]) with
    | nil => rw [hX] at hp; simp at hp
    | cons q qs =>
      rw [hX] at hp
      simp only [List.head?, Option.some.injEq] at hp
      subst hp
      simp [hX]
  · intro pl houses hne
    simp only [SrcAppApi.predict_batch]
    rw [if_neg (by simpa [List.isEmpty_iff] using hne)]

/-- C4 witness: the amended theorem applied with a model that predicts 2.7
for every row: the backend paths (with an empty bundle feature list, so
preprocessing trivially succeeds) answer `np.round(2.7) = 3` on both the
single and the batch endpoint, the api paths answer `int(2.7) = 2` on both. -/
theorem C4_rounding_amended_witness :
    |(27/10 : ℚ) - (np_round (27/10) : ℚ)| ≤ 1/2 ∧
    (BackendMain.predict_single
        { model_pipeline := some (fun X => X.rows.map (fun _ => 27/10)),
          model_meta := trainedMeta, original_features := [], target := "price" }
        exampleHouse).2 = .ok (np_round (27/10)) ∧
    (BackendMain.predict_batch
        { model_pipeline := some (fun X => X.rows.map (fun _ => 27/10)),
          model_meta := trainedMeta, original_features := [], target := "price" }
        [exampleHouse]).2 = .ok [np_round (27/10)] ∧
    SrcAppApi.predict_single (fun X => X.rows.map (fun _ => 27/10)) exampleHouse
      = .ok (py_int (27/10)) ∧
    SrcAppApi.predict_batch (fun X => X.rows.map (fun _ => 27/10)) [exampleHouse]
      = .ok [py_int (27/10)] :=
  ⟨C4_rounding_amended.1 (27/10),
   C4_rounding_amended.2.1
      { model_pipeline := some (fun X => X.rows.map (fun _ => 27/10)),
        model_meta := trainedMeta, original_features := [], target := "price" }
      (fun X => X.rows.map (fun _ => 27/10)) exampleHouse (27/10) rfl
      (by norm_num +decide [BackendMain.preprocess_features,
            BackendMain.derive_features, Frame.hasCol, Frame.addCol,
            Frame.colValues, Frame.select, Row.get, Row.set, rawFrame,
            RawRecord.toRow, rawCols, median, sortAsc, insertAsc, exampleHouse,
            trainedMeta, cSqft, cBed, cBath, cYear, cLot, cDist, cSchool, cAge,
            cSizePerBed, cBathBedRt, cTotalRooms, cQuality, cSqftSq, cLotSq,
            cIsNew, cLarge, BackendMain.CURRENT_YEAR, Except.toOption]),
   C4_rounding_amended.2.2.1
      { model_pipeline := some (fun X => X.rows.map (fun _ => 27/10)),
        model_meta := trainedMeta, original_features := [], target := "price" }
      (fun X => X.rows.map (fun _ => 27/10)) [exampleHouse] [27/10] rfl
      (by norm_num +decide [BackendMain.preprocess_features,
            BackendMain.derive_features, Frame.hasCol, Frame.addCol,
            Frame.colValues, Frame.select, Row.get, Row.set, rawFrame,
            RawRecord.toRow, rawCols, median, sortAsc, insertAsc, exampleHouse,
            trainedMeta, cSqft, cBed, cBath, cYear, cLot, cDist, cSchool, cAge,
            cSizePerBed, cBathBedRt, cTotalRooms, cQuality, cSqftSq, cLotSq,
            cIsNew, cLarge, BackendMain.CURRENT_YEAR, Except.toOption]),
   C4_rounding_amended.2.2.2.1 (fun X => X.rows.map (fun _ => 27/10))
      exampleHouse (27/10) (by norm_num [rawFrame, RawRecord.toRow]),
   C4_rounding_amended.2.2.2.2 (fun X => X.rows.map (fun _ => 27/10))
      [exampleHouse] (by simp)⟩

/-- Helper: a conditional column addition never changes the number of rows. -/
theorem rows_length_ite_addCol (P : Prop) [Decidable P] (f : Frame) (c : String)
    (g : Row → ℚ) : (if P then f.addCol c g else f).rows.length = f.rows.length := by
  split <;> simp [Frame.addCol]

/-- Helper: feature derivation preserves the number of rows. -/
theorem derive_features_rows_length (meta : ModelMeta) (df : Frame) :
    (BackendMain.derive_features meta df).rows.length = df.rows.length := by
  simp only [BackendMain.derive_features]
  simp only [rows_length_ite_addCol]

/-- Helper: successful preprocessing preserves the number of rows. -/
theorem preprocess_ok_rows_length (meta : ModelMeta) (feats : List String)
    (df X : Frame) (h : BackendMain.preprocess_features meta feats df = .ok X) :
    X.rows.length = df.rows.length := by
  simp only [BackendMain.preprocess_features] at h
  split at h
  · cases h
    simpa [Frame.select] using derive_features_rows_length meta df
  · cases h

/-- C5 [confirmed]: for every raw record and every model (under the sklearn
contract of one prediction per input row), predict-single on the record and
predict-batch on the one-element list containing it agree - in the
backend-python service (both run the identical preprocess-predict-round
pipeline on the same one-row DataFrame) and in the api.py service. -/
theorem C5_single_eq_batch_of_one :
    (∀ s (house : RawRecord) pl, s.model_pipeline = some pl →
      (∀ X, (pl X).length = X.rows.length) →
      (BackendMain.predict_batch s [house]).2
        = ((BackendMain.predict_single s house).2).map (fun n => [n])) ∧
    (∀ pl (house : RawRecord), (∀ X, (pl X).length = X.rows.length) →
      SrcAppApi.predict_batch pl [house]
        = (SrcAppApi.predict_single pl house).map (fun n => [n])) := by
  constructor
  · intro s house pl hpl hlen
    simp only [BackendMain.predict_batch, BackendMain.predict_single, hpl]
    cases hprep : BackendMain.preprocess_features s.model_meta s.original_features
        (rawFrame [house]) with
    | error e => simp [Except.map]
    | ok X =>
      have hx : X.rows.length = 1 := by
        rw [preprocess_ok_rows_length s.model_meta s.original_features
          (rawFrame [house]) X hprep]
        simp [rawFrame, RawRecord.toRow]
      have h1 : (pl X).length = 1 := by rw [hlen X, hx]
      obtain ⟨p, hp⟩ := List.length_eq_one.1 h1
      simp [hp, Except.map]
  · intro pl house hlen
    simp only [SrcAppApi.predict_batch, SrcAppApi.predict_single]
    have h1 : (pl (rawFrame [house])).length = 1 := by
      rw [hlen (rawFrame [house])]
      simp [rawFrame, RawRecord.toRow]
    obtain ⟨p, hp⟩ := List.length_eq_one.1 h1
    simp [hp, Except.map]

/-- C5 witness: the equivalence applied to the documented example record and
a concrete constant-per-row model in a loaded server state. -/
theorem C5_single_eq_batch_of_one_witness :
    (BackendMain.predict_batch
        { model_pipeline := some (fun X => X.rows.map (fun _ => 123456)),
          model_meta := trainedMeta,
          original_features := HpmlTrain.ALLOWED_FEATURES_TRAIN,
          target := "price" } [exampleHouse]).2
      = ((BackendMain.predict_single
          { model_pipeline := some (fun X => X.rows.map (fun _ => 123456)),
            model_meta := trainedMeta,
            original_features := HpmlTrain.ALLOWED_FEATURES_TRAIN,
            target := "price" } exampleHouse).2).map (fun n => [n]) ∧
    SrcAppApi.predict_batch (fun X => X.rows.map (fun _ => 123456)) [exampleHouse]
      = (SrcAppApi.predict_single (fun X => X.rows.map (fun _ => 123456))
          exampleHouse).map (fun n => [n]) :=
  ⟨C5_single_eq_batch_of_one.1
      { model_pipeline := some (fun X => X.rows.map (fun _ => 123456)),
        model_meta := trainedMeta,
        original_features := HpmlTrain.ALLOWED_FEATURES_TRAIN,
        target := "price" } exampleHouse
      (fun X => X.rows.map (fun _ => 123456)) rfl (fun X => by simp),
   C5_single_eq_batch_of_one.2 (fun X => X.rows.map (fun _ => 123456))
      exampleHouse (fun X => by simp)⟩

/-- A backend server state after a successful load: constant-prediction
model, training-shaped metadata, the training feature list. -/
def loadedState : BackendMain.ServerState :=
  { model_pipeline := some (fun X => X.rows.map (fun _ => 250000)),
    model_meta := trainedMeta,
    original_features := HpmlTrain.ALLOWED_FEATURES_TRAIN,
    target := "price" }

/-- Helper: feature derivation does nothing on a DataFrame with no columns
(which is what `pd.DataFrame([])` yields for an empty batch). -/
theorem derive_features_empty_frame (meta : ModelMeta) :
    BackendMain.derive_features meta (Frame.mk [] []) = Frame.mk [] [] := rfl

/-- Helper: on a DataFrame with no columns, preprocessing fails naming every
bundle feature as missing. -/
theorem preprocess_empty_frame (meta : ModelMeta) (feats : List String)
    (h : feats ≠ []) :
    BackendMain.preprocess_features meta feats (Frame.mk [] []) = .error feats := by
  simp only [BackendMain.preprocess_features, derive_features_empty_frame]
  have hfil : feats.filter (fun c => ¬ (Frame.mk [] []).hasCol c) = feats :=
    List.filter_eq_self.2 (fun a _ => by simp [Frame.hasCol])
  rw [hfil, if_neg (by simpa [List.isEmpty_iff] using h)]

/-- C6 counterexample: in the backend-python service an empty batch does NOT
produce a client error: `predict_batch` has no emptiness check, the all-
features-missing RuntimeError escapes the handler and the framework answers
500 (a server error). Likewise its `predict_csv` maps the empty-file
ValueError to HTTP 500, not a 4xx client error. -/
theorem C6_backend_empty_returns_500 :
    statusOf (BackendMain.predict_batch loadedState []).2 = some 500 ∧
    statusOf (BackendMain.predict_csv loadedState "data.csv"
        (Frame.mk rawCols [])).2 = some 500 := by
  constructor
  · simp only [BackendMain.predict_batch, loadedState]
    rw [show rawFrame [] = Frame.mk [] [] from rfl,
        preprocess_empty_frame trainedMeta HpmlTrain.ALLOWED_FEATURES_TRAIN
          (by decide)]
    rfl
  · simp only [BackendMain.predict_csv, loadedState]
    rw [if_neg (by decide)]
    rfl

/-- C6 amended: `src/app/api.py`'s predict-batch and `src/app/main.py`'s
predict and predict-csv do return client errors (400) on empty input, as the
claim says; but the backend-python service returns 500 server errors for
both the empty batch (uncaught missing-features error) and the empty CSV
(its handler re-raises as 500). -/
theorem C6_empty_input_amended :
    (∀ pl, SrcAppApi.predict_batch pl [] = .error ⟨400, "Empty batch"⟩) ∧
    (∀ s ks pl, s.model_pipeline = some pl →
      (SrcAppMain.predict s ks (.batch [])).2
        = .error ⟨400, "Prediction failed: No prediction data provided"⟩) ∧
    (∀ s pl fn df, s.model_pipeline = some pl → lower_endswith_csv fn = true →
      df.rows.isEmpty = true →
      (SrcAppMain.predict_csv s fn df).2
        = .error ⟨400, "CSV processing failed: Uploaded CSV is empty"⟩) ∧
    (∀ s pl, s.model_pipeline = some pl → s.original_features ≠ [] →
      statusOf (BackendMain.predict_batch s []).2 = some 500) ∧
    (∀ s pl fn df, s.model_pipeline = some pl → lower_endswith_csv fn = true →
      df.rows.isEmpty = true →
      statusOf (BackendMain.predict_csv s fn df).2 = some 500) := by
  refine ⟨fun pl => rfl, ?_, ?_, ?_, ?_⟩
  · intro s ks pl hpl
    simp [SrcAppMain.predict, hpl]
  · intro s pl fn df hpl hcsv hemp
    simp [SrcAppMain.predict_csv, hpl, hcsv, hemp]
  · intro s pl hpl hne
    simp only [BackendMain.predict_batch, hpl]
    rw [show rawFrame [] = Frame.mk [] [] from rfl,
        preprocess_empty_frame s.model_meta s.original_features hne]
    rfl
  · intro s pl fn df hpl hcsv hemp
    simp [BackendMain.predict_csv, hpl, hcsv, hemp, statusOf]

/-- C6 witness: the amended behaviour at concrete inputs - a loaded backend
state with the training feature list, the filename `data.csv`, and a
header-only empty CSV frame. -/
theorem C6_empty_input_amended_witness :
    SrcAppApi.predict_batch (fun X => X.rows.map (fun _ => 250000)) []
      = .error ⟨400, "Empty batch"⟩ ∧
    (SrcAppMain.predict
        { model_pipeline := some (fun X => X.rows.map (fun _ => 250000)),
          model_meta := trainedMeta, original_features := rawCols.take 2 }
        rawCols (.batch [])).2
      = .error ⟨400, "Prediction failed: No prediction data provided"⟩ ∧
    (SrcAppMain.predict_csv
        { model_pipeline := some (fun X => X.rows.map (fun _ => 250000)),
          model_meta := trainedMeta, original_features := rawCols.take 2 }
        "data.csv" (Frame.mk rawCols [])).2
      = .error ⟨400, "CSV processing failed: Uploaded CSV is empty"⟩ ∧
    statusOf (BackendMain.predict_batch loadedState []).2 = some 500 ∧
    statusOf (BackendMain.predict_csv loadedState "data.csv"
        (Frame.mk rawCols [])).2 = some 500 :=
  ⟨C6_empty_input_amended.1 (fun X => X.rows.map (fun _ => 250000)),
   C6_empty_input_amended.2.1
      { model_pipeline := some (fun X => X.rows.map (fun _ => 250000)),
        model_meta := trainedMeta, original_features := rawCols.take 2 }
      rawCols (fun X => X.rows.map (fun _ => 250000)) rfl,
   C6_empty_input_amended.2.2.1
      { model_pipeline := some (fun X => X.rows.map (fun _ => 250000)),
        model_meta := trainedMeta, original_features := rawCols.take 2 }
      (fun X => X.rows.map (fun _ => 250000)) "data.csv" (Frame.mk rawCols [])
      rfl (by decide) rfl,
   C6_empty_input_amended.2.2.2.1 loadedState
      (fun X => X.rows.map (fun _ => 250000)) rfl (by decide),
   C6_empty_input_amended.2.2.2.2 loadedState
      (fun X => X.rows.map (fun _ => 250000)) "data.csv" (Frame.mk rawCols [])
      rfl (by decide) rfl⟩

/-- C7 counterexample: the backend-python `load_model` catches every load
failure, sets the pipeline global to `None`, and returns normally - the
service then proceeds to handle requests with an unloaded model (predict
answers 503, health answers "not loaded"), instead of refusing to start. -/
theorem C7_backend_swallows_load_failure :
    (BackendMain.load_model (.error "No such file or directory")
        (.error "No such file or directory") BackendMain.initState).model_pipeline
      = none ∧
    (BackendMain.predict_single
        (BackendMain.load_model (.error "No such file or directory")
          (.error "No such file or directory") BackendMain.initState)
        exampleHouse).2 = .error ⟨503, "Model not loaded"⟩ ∧
    (BackendMain.health_check
        (BackendMain.load_model (.error "No such file or directory")
          (.error "No such file or directory") BackendMain.initState)).2
      = ("healthy", "not loaded") :=
  ⟨rfl, rfl, rfl⟩

/-- C7 amended: `src/app/main.py`'s loader does fail fast - it raises when
the model file is missing and propagates any bundle-read error, so startup
aborts. The backend-python loader instead swallows every load error, leaves
`model_pipeline = None`, and the started service answers requests in that
state with 503. -/
theorem C7_fail_fast_amended :
    (∀ lb me lm, SrcAppMain.load_model false lb me lm
        = .error "Model file not found") ∧
    (∀ e me lm, SrcAppMain.load_model true (.error e) me lm = .error e) ∧
    (∀ e lm s, (BackendMain.load_model (.error e) lm s).model_pipeline = none) ∧
    (∀ s (house : RawRecord), s.model_pipeline = none →
      (BackendMain.predict_single s house).2 = .error ⟨503, "Model not loaded"⟩ ∧
      (BackendMain.health_check s).2 = ("healthy", "not loaded")) := by
  refine ⟨fun lb me lm => rfl, fun e me lm => rfl, fun e lm s => rfl, ?_⟩
  intro s house hnone
  constructor
  · simp only [BackendMain.predict_single, hnone]
  · simp only [BackendMain.health_check, hnone, Option.isSome_none]
    rfl

/-- C7 witness: the amended statement at concrete inputs, including an
endpoint answering 503 in the state produced by a failed backend load. -/
theorem C7_fail_fast_amended_witness :
    SrcAppMain.load_model false
        (.ok ⟨none, none, none, fun X => X.rows.map (fun _ => 0)⟩) true
        (.ok trainedMeta)
      = .error "Model file not found" ∧
    SrcAppMain.load_model true (.error "corrupt joblib file") true
        (.ok trainedMeta)
      = .error "corrupt joblib file" ∧
    (BackendMain.load_model (.error "missing") (.error "missing")
        BackendMain.initState).model_pipeline = none ∧
    (BackendMain.predict_single
        { model_pipeline := none, model_meta := trainedMeta,
          original_features := [], target := "price" } exampleHouse).2
      = .error ⟨503, "Model not loaded"⟩ ∧
    (BackendMain.health_check
        { model_pipeline := none, model_meta := trainedMeta,
          original_features := [], target := "price" }).2
      = ("healthy", "not loaded") :=
  ⟨C7_fail_fast_amended.1
      (.ok ⟨none, none, none, fun X => X.rows.map (fun _ => 0)⟩) true
      (.ok trainedMeta),
   C7_fail_fast_amended.2.1 "corrupt joblib file" true (.ok trainedMeta),
   C7_fail_fast_amended.2.2.1 "missing" (.error "missing") BackendMain.initState,
   (C7_fail_fast_amended.2.2.2
      { model_pipeline := none, model_meta := trainedMeta,
        original_features := [], target := "price" } exampleHouse rfl).1,
   (C7_fail_fast_amended.2.2.2
      { model_pipeline := none, model_meta := trainedMeta,
        original_features := [], target := "price" } exampleHouse rfl).2⟩

/-- An `src/app/main.py` server state whose model is not loaded. -/
def unloadedSrcState : SrcAppMain.ServerState :=
  { model_pipeline := none, model_meta := trainedMeta, original_features := [] }

/-- C8 counterexample: `src/app/main.py`'s health check (and `api.py`'s) is a
constant response claiming the model is loaded and ready - evaluated on a
state whose pipeline is `None` it still reports loaded, so it does not
report the true bundle-load state. -/
theorem C8_srcApp_health_constant_loaded :
    unloadedSrcState.model_pipeline = none ∧
    (SrcAppMain.health_check unloadedSrcState).2
      = ("healthy", "Model is loaded and ready") ∧
    SrcAppApi.health_check = ("healthy", "loaded") :=
  ⟨rfl, rfl, rfl⟩

/-- C8 amended: the backend-python health check does report the true load
state (it answers "loaded" exactly when the pipeline global is set); the
src/app and api.py health checks are constants that always claim loaded,
which only matches the truth because their load paths fail fast (a
successful `src/app` load always installs a pipeline, so an unloaded serving
state is unreachable there). -/
theorem C8_health_reports_amended :
    (∀ s : BackendMain.ServerState,
      ((BackendMain.health_check s).2.2 = "loaded" ↔ s.model_pipeline.isSome = true)) ∧
    (∀ mfe lb me lm st, SrcAppMain.load_model mfe lb me lm = .ok st →
      st.model_pipeline.isSome = true) ∧
    (∀ s : SrcAppMain.ServerState,
      (SrcAppMain.health_check s).2 = ("healthy", "Model is loaded and ready")) := by
  refine ⟨?_, ?_, fun s => rfl⟩
  · intro s
    cases hp : s.model_pipeline <;> simp [BackendMain.health_check, hp]
  · intro mfe lb me lm st h
    simp only [SrcAppMain.load_model] at h
    cases mfe with
    | false => simp at h
    | true =>
      rw [if_neg (by simp)] at h
      cases lb with
      | error e =>
        simp only [Bind.bind, Except.bind] at h
        exact Except.noConfusion h
      | ok b =>
        simp only [Bind.bind, Except.bind] at h
        cases me with
        | false =>
          rw [if_neg (by simp)] at h
          rw [Except.ok.injEq] at h
          rw [← h]
          rfl
        | true =>
          rw [if_pos rfl] at h
          cases lm with
          | error e =>
            simp only [Bind.bind, Except.bind] at h
            exact Except.noConfusion h
          | ok m =>
            simp only [Bind.bind, Except.bind, Except.ok.injEq] at h
            rw [← h]
            rfl

/-- C8 witness: the amended statement at concrete states - the backend
health check on a loaded and an unloaded state, and a concrete successful
src/app load whose resulting state has a pipeline installed. -/
theorem C8_health_reports_amended_witness :
    ((BackendMain.health_check loadedState).2.2 = "loaded"
      ↔ loadedState.model_pipeline.isSome = true) ∧
    ({ model_pipeline := some (fun X => X.rows.map (fun _ => (0:ℚ))),
       model_meta := trainedMeta,
       original_features := rawCols } : SrcAppMain.ServerState).model_pipeline.isSome
      = true ∧
    (SrcAppMain.health_check unloadedSrcState).2
      = ("healthy", "Model is loaded and ready") :=
  ⟨C8_health_reports_amended.1 loadedState,
   C8_health_reports_amended.2.1 true
      (.ok ⟨some (fun X => X.rows.map (fun _ => (0:ℚ))), some rawCols, none,
        fun X => X.rows.map (fun _ => (0:ℚ))⟩)
      true (.ok trainedMeta) _ rfl,
   C8_health_reports_amended.2.2 unloadedSrcState⟩

/-- C9 [confirmed]: every backend-python request handler leaves the shared
module state (pipeline, metadata, feature list, target) unchanged: none of
the five endpoints contains a `global` write, so the state component of each
handler's result equals its input state. -/
theorem C9_handlers_preserve_state :
    (∀ s, (BackendMain.health_check s).1 = s) ∧
    (∀ s, (BackendMain.model_info s).1 = s) ∧
    (∀ s house, (BackendMain.predict_single s house).1 = s) ∧
    (∀ s houses, (BackendMain.predict_batch s houses).1 = s) ∧
    (∀ s fn df, (BackendMain.predict_csv s fn df).1 = s) := by
  refine ⟨fun s => rfl, ?_, ?_, ?_, ?_⟩
  · intro s
    simp only [BackendMain.model_info]
    split <;> rfl
  · intro s house
    simp only [BackendMain.predict_single]
    split
    · rfl
    · split
      · rfl
      · split <;> rfl
  · intro s houses
    simp only [BackendMain.predict_batch]
    split
    · rfl
    · split <;> rfl
  · intro s fn df
    simp only [BackendMain.predict_csv]
    split
    · rfl
    · split
      · rfl
      · split
        · rfl
        · split <;> rfl

/-- A record that passes the request validation although its distance to the
city centre is -0.1. -/
def negDistHouse : RawRecord := ⟨1850, 3, 2, 2000, 7500, -1/10, 41/5⟩

/-- C10 counterexample: the Pydantic validation does NOT enforce
`distance_to_city_center ≥ 0` (the field has no bounds), so a record with
distance -0.1 is accepted and the serving quality_score denominator
`distance + 0.1` is exactly zero: the claim's premise misstates the
validation and its division-safety conclusion fails. -/
theorem C10_validation_admits_zero_denominator :
    BackendMain.HouseFeatures_valid negDistHouse ∧
    negDistHouse.distance_to_city_center + 1/10 = 0 := by
  constructor
  · norm_num [BackendMain.HouseFeatures_valid, negDistHouse, BackendMain.CURRENT_YEAR]
  · norm_num [negDistHouse]

/-- C10 amended: for every record accepted by the actual validation the
bedroom denominators are safe (`bedrooms + 1 ≥ 2 > 0` for size_per_bedroom
and bathroom_bedroom_ratio); the distance denominator `distance + 0.1` of
the serving quality_score is positive only under the extra assumption
`distance_to_city_center ≥ 0`, which the validation does not check. -/
theorem C10_denominators_amended :
    (∀ r, BackendMain.HouseFeatures_valid r →
      (2:ℚ) ≤ (r.bedrooms : ℚ) + 1 ∧ ((r.bedrooms : ℚ) + 1) ≠ 0) ∧
    (∀ r, BackendMain.HouseFeatures_valid r → 0 ≤ r.distance_to_city_center →
      0 < r.distance_to_city_center + 1/10) := by
  constructor
  · rintro r ⟨h1, -⟩
    have h1q : (1:ℚ) ≤ (r.bedrooms : ℚ) := by exact_mod_cast h1
    constructor
    · linarith
    · intro h
      linarith
  · rintro r - hd
    linarith

/-- C10 witness: the amended statement at the documented example record. -/
theorem C10_denominators_amended_witness :
    ((2:ℚ) ≤ (exampleHouse.bedrooms : ℚ) + 1 ∧ ((exampleHouse.bedrooms : ℚ) + 1) ≠ 0) ∧
    0 < exampleHouse.distance_to_city_center + 1/10 :=
  ⟨C10_denominators_amended.1 exampleHouse
      (by norm_num [BackendMain.HouseFeatures_valid, exampleHouse,
        BackendMain.CURRENT_YEAR]),
   C10_denominators_amended.2 exampleHouse
      (by norm_num [BackendMain.HouseFeatures_valid, exampleHouse,
        BackendMain.CURRENT_YEAR])
      (by norm_num [exampleHouse])⟩
